import Mathlib

/-!
Verification of the wave_stream example program (src/src/main.rs).

The repository contains a single example program exercising the
wave_stream WAV I/O engine.  The data constructed by `main` (channel
layouts, headers, sample frames, the ramp write loop and the sine
iterator) is embedded below directly from the source.  The engine
itself (the wave_stream library) is not part of the repository's
sources; where a claim depends on engine behaviour, the relevant
operation is modelled from the specification and the definition's doc
comment says so explicitly.

Rust `f32` values are represented by Lean's `Float`.  No theorem in
this file depends on the value of any floating-point computation: all
floating-point facts proved are structural (which fields are populated,
congruence of equal inputs), never facts about rounding.
-/

namespace WaveStreamExample

/-- The 18 canonical speaker positions of the WAV channel mask, exactly the
channel vocabulary spelled out field-by-field in `main.rs` (both in the
`Channels` literals and in the `SamplesByChannel` literals). -/
inductive Channel
  | front_left
  | front_right
  | front_center
  | low_frequency
  | back_left
  | back_right
  | front_left_of_center
  | front_right_of_center
  | back_center
  | side_left
  | side_right
  | top_center
  | top_front_left
  | top_front_center
  | top_front_right
  | top_back_left
  | top_back_center
  | top_back_right
  deriving DecidableEq

/-- The list of all 18 channel positions in canonical order. -/
def allChannels : List Channel :=
  [Channel.front_left, Channel.front_right, Channel.front_center,
   Channel.low_frequency, Channel.back_left, Channel.back_right,
   Channel.front_left_of_center, Channel.front_right_of_center,
   Channel.back_center, Channel.side_left, Channel.side_right,
   Channel.top_center, Channel.top_front_left, Channel.top_front_center,
   Channel.top_front_right, Channel.top_back_left, Channel.top_back_center,
   Channel.top_back_right]

/-- The header's channel-flag record: one `Bool` per named channel position,
as constructed field-by-field in `main.rs` (lines 61-80 and 133-152). -/
structure Channels where
  front_left : Bool
  front_right : Bool
  front_center : Bool
  low_frequency : Bool
  back_left : Bool
  back_right : Bool
  front_left_of_center : Bool
  front_right_of_center : Bool
  back_center : Bool
  side_left : Bool
  side_right : Bool
  top_center : Bool
  top_front_left : Bool
  top_front_center : Bool
  top_front_right : Bool
  top_back_left : Bool
  top_back_center : Bool
  top_back_right : Bool
  deriving DecidableEq

/-- A sparse sample frame: one `Option T` per named channel position, as
constructed field-by-field in `main.rs` (lines 103-122 and 183-202). -/
structure SamplesByChannel (T : Type) where
  front_left : Option T
  front_right : Option T
  front_center : Option T
  low_frequency : Option T
  back_left : Option T
  back_right : Option T
  front_left_of_center : Option T
  front_right_of_center : Option T
  back_center : Option T
  side_left : Option T
  side_right : Option T
  top_center : Option T
  top_front_left : Option T
  top_front_center : Option T
  top_front_right : Option T
  top_back_left : Option T
  top_back_center : Option T
  top_back_right : Option T

/-- Read a `Channels` record as a function on channel positions. -/
def Channels.toFun (c : Channels) : Channel → Bool
  | Channel.front_left => c.front_left
  | Channel.front_right => c.front_right
  | Channel.front_center => c.front_center
  | Channel.low_frequency => c.low_frequency
  | Channel.back_left => c.back_left
  | Channel.back_right => c.back_right
  | Channel.front_left_of_center => c.front_left_of_center
  | Channel.front_right_of_center => c.front_right_of_center
  | Channel.back_center => c.back_center
  | Channel.side_left => c.side_left
  | Channel.side_right => c.side_right
  | Channel.top_center => c.top_center
  | Channel.top_front_left => c.top_front_left
  | Channel.top_front_center => c.top_front_center
  | Channel.top_front_right => c.top_front_right
  | Channel.top_back_left => c.top_back_left
  | Channel.top_back_center => c.top_back_center
  | Channel.top_back_right => c.top_back_right

/-- Build a `Channels` record from a function on channel positions. -/
def Channels.ofFun (f : Channel → Bool) : Channels where
  front_left := f Channel.front_left
  front_right := f Channel.front_right
  front_center := f Channel.front_center
  low_frequency := f Channel.low_frequency
  back_left := f Channel.back_left
  back_right := f Channel.back_right
  front_left_of_center := f Channel.front_left_of_center
  front_right_of_center := f Channel.front_right_of_center
  back_center := f Channel.back_center
  side_left := f Channel.side_left
  side_right := f Channel.side_right
  top_center := f Channel.top_center
  top_front_left := f Channel.top_front_left
  top_front_center := f Channel.top_front_center
  top_front_right := f Channel.top_front_right
  top_back_left := f Channel.top_back_left
  top_back_center := f Channel.top_back_center
  top_back_right := f Channel.top_back_right

/-- Read a `SamplesByChannel` record as a function on channel positions. -/
def SamplesByChannel.toFun {T : Type} (s : SamplesByChannel T) : Channel → Option T
  | Channel.front_left => s.front_left
  | Channel.front_right => s.front_right
  | Channel.front_center => s.front_center
  | Channel.low_frequency => s.low_frequency
  | Channel.back_left => s.back_left
  | Channel.back_right => s.back_right
  | Channel.front_left_of_center => s.front_left_of_center
  | Channel.front_right_of_center => s.front_right_of_center
  | Channel.back_center => s.back_center
  | Channel.side_left => s.side_left
  | Channel.side_right => s.side_right
  | Channel.top_center => s.top_center
  | Channel.top_front_left => s.top_front_left
  | Channel.top_front_center => s.top_front_center
  | Channel.top_front_right => s.top_front_right
  | Channel.top_back_left => s.top_back_left
  | Channel.top_back_center => s.top_back_center
  | Channel.top_back_right => s.top_back_right

/-- Build a `SamplesByChannel` record from a function on channel positions. -/
def SamplesByChannel.ofFun {T : Type} (f : Channel → Option T) : SamplesByChannel T where
  front_left := f Channel.front_left
  front_right := f Channel.front_right
  front_center := f Channel.front_center
  low_frequency := f Channel.low_frequency
  back_left := f Channel.back_left
  back_right := f Channel.back_right
  front_left_of_center := f Channel.front_left_of_center
  front_right_of_center := f Channel.front_right_of_center
  back_center := f Channel.back_center
  side_left := f Channel.side_left
  side_right := f Channel.side_right
  top_center := f Channel.top_center
  top_front_left := f Channel.top_front_left
  top_front_center := f Channel.top_front_center
  top_front_right := f Channel.top_front_right
  top_back_left := f Channel.top_back_left
  top_back_center := f Channel.top_back_center
  top_back_right := f Channel.top_back_right

/-- The on-disk sample formats of the engine (`SampleFormat::Float` is the
one used by `main.rs`; the full enumeration is Int8, Int16, Int24, Float). -/
inductive SampleFormat
  | int8
  | int16
  | int24
  | float
  deriving DecidableEq

/-- The WAV header as constructed in `main.rs`: sample format, channel
flags and sample rate. -/
structure WavHeader where
  sample_format : SampleFormat
  channels : Channels
  sample_rate : Nat
  deriving DecidableEq

/-- `let sample_rate = 96000;` (main.rs line 58). -/
def sample_rate : Nat := 96000

/-- The channel layout built in `main.rs` (both header literals): front_left
`true`, every other flag `false`. -/
def frontLeftOnly : Channels where
  front_left := true
  front_right := false
  front_center := false
  low_frequency := false
  back_left := false
  back_right := false
  front_left_of_center := false
  front_right_of_center := false
  back_center := false
  side_left := false
  side_right := false
  top_center := false
  top_front_left := false
  top_front_center := false
  top_front_right := false
  top_back_left := false
  top_back_center := false
  top_back_right := false

/-- The header passed to `write_wav_to_file_path(Path::new("ramp.wav"), header)`
(main.rs lines 59-84). -/
def rampHeader : WavHeader where
  sample_format := SampleFormat.float
  channels := frontLeftOnly
  sample_rate := sample_rate

/-- The header passed to `write_wav_to_file_path(Path::new("sine.wav"), header)`
(main.rs lines 131-156). -/
def sineHeader : WavHeader where
  sample_format := SampleFormat.float
  channels := frontLeftOnly
  sample_rate := sample_rate

/-- The two `write_wav_to_file_path` calls of `main.rs`, with the path and
header each receives. -/
def writeCalls : List (String × WavHeader) :=
  [("ramp.wav", rampHeader), ("sine.wav", sineHeader)]

/-- A placeholder for `std::io::Error`: the payload distinguishes errors so
that "propagates that error" is observable. -/
structure IoError where
  code : Nat
  deriving DecidableEq

/-- Rust's `f32::consts::TAU` as used by `main.rs` (value irrelevant to every
theorem below; `Float` stands in for `f32`). -/
def tau : Float := 6.2831855

/-- Rust's `f32::consts::PI`, the initial `current_sample` of the sine
iterator (main.rs line 159). -/
def pi_f32 : Float := 3.1415927

/-- `let samples_in_ramp = 2000;` (main.rs line 94). -/
def samples_in_ramp : Nat := 2000

/-- The ramp sample value written at write index `sample` (main.rs lines
98-99): `modulo = (sample % samples_in_ramp) as f32;
sample_value = (2f32 * modulo / samples_in_ramp_f32) - 1f32`. -/
def rampValue (sample : Nat) : Float :=
  let modulo : Float := Float.ofNat (sample % samples_in_ramp)
  2 * modulo / Float.ofNat samples_in_ramp - 1

/-- The `SamplesByChannel` literal passed to `write_samples` in the ramp loop
(main.rs lines 103-122): `front_left` populated, all 17 other fields `None`. -/
def rampFrame (sample : Nat) : SamplesByChannel Float where
  front_left := some (rampValue sample)
  front_right := none
  front_center := none
  low_frequency := none
  back_left := none
  back_right := none
  front_left_of_center := none
  front_right_of_center := none
  back_center := none
  side_left := none
  side_right := none
  top_center := none
  top_front_left := none
  top_front_center := none
  top_front_right := none
  top_back_left := none
  top_back_center := none
  top_back_right := none

/-- One observable action of the random-access writer in the ramp section of
`main`: a `write_samples(index, frame)` call or the final `flush()`. -/
inductive RampEvent
  | write (index : Nat) (frame : SamplesByChannel Float)
  | flush

/-- The body of `for sample in 0usize..((sample_rate * 3) as usize)`
(main.rs lines 96-125), unrolled from index `i` for `fuel` iterations:
each iteration emits one `write_samples` call. -/
def rampLoopFrom (i : Nat) : Nat → List RampEvent
  | 0 => []
  | fuel + 1 => RampEvent.write i (rampFrame i) :: rampLoopFrom (i + 1) fuel

/-- The full event trace of the ramp section of `main`: the loop over write
indices `0 .. sample_rate * 3` followed by the single `flush()`
(main.rs line 127). -/
def rampEvents : List RampEvent :=
  rampLoopFrom 0 (sample_rate * 3) ++ [RampEvent.flush]

/-- The write index of an event, `none` for the flush. -/
def writeIndex : RampEvent → Option Nat
  | RampEvent.write i _ => some i
  | RampEvent.flush => none

/-- Whether an event is the `flush()` call. -/
def isFlush : RampEvent → Bool
  | RampEvent.write _ _ => false
  | RampEvent.flush => true

/-- The sequence of write indices of the ramp trace, in order. -/
def rampWriteIndices : List Nat := rampEvents.filterMap writeIndex

/-- The state of `SineIterator` (main.rs lines 166-169). -/
structure SineIterator where
  period : Float
  current_sample : Float

/-- The sine iterator constructed in `main` (main.rs lines 157-160):
`period = (sample_rate / 60) as f32`, `current_sample = PI`. -/
def mainSineIterator : SineIterator where
  period := Float.ofNat (sample_rate / 60)
  current_sample := pi_f32

/-- The frame a `SineIterator::next` call yields from state `it`: `front_left`
populated with `(current_sample / period * TAU).sin()`, all other fields
`None` (main.rs lines 183-202). -/
def sineFrame (it : SineIterator) : SamplesByChannel Float where
  front_left := some (Float.sin (it.current_sample / it.period * tau))
  front_right := none
  front_center := none
  low_frequency := none
  back_left := none
  back_right := none
  front_left_of_center := none
  front_right_of_center := none
  back_center := none
  side_left := none
  side_right := none
  top_center := none
  top_front_left := none
  top_front_center := none
  top_front_right := none
  top_back_left := none
  top_back_center := none
  top_back_right := none

/-- `SineIterator::next` (main.rs lines 175-203): computes the sine of the
current phase, advances `current_sample` by one, wraps it to `0` past
`period`, and returns `Some(Ok(frame))`. -/
def sineNext (it : SineIterator) :
    Option (Except IoError (SamplesByChannel Float)) × SineIterator :=
  let result := Float.sin (it.current_sample / it.period * tau)
  let advanced := it.current_sample + 1
  let wrapped := if advanced > it.period then 0 else advanced
  (some (Except.ok
    { front_left := some result
      front_right := none
      front_center := none
      low_frequency := none
      back_left := none
      back_right := none
      front_left_of_center := none
      front_right_of_center := none
      back_center := none
      side_left := none
      side_right := none
      top_center := none
      top_front_left := none
      top_front_center := none
      top_front_right := none
      top_back_left := none
      top_back_center := none
      top_back_right := none }),
   { period := it.period, current_sample := wrapped })

/-- Rust's `Iterator::take(n)` applied to the sine iterator
(main.rs line 161): collects up to `n` elements, stopping early only if the
underlying iterator is exhausted. -/
def sineTake : SineIterator → Nat → List (Except IoError (SamplesByChannel Float))
  | _, 0 => []
  | it, n + 1 =>
    match sineNext it with
    | (some r, it') => r :: sineTake it' n
    | (none, _) => []

/-- The two access disciplines a handle can hand out. -/
inductive ViewKind
  | randomAccess
  | streaming
  deriving DecidableEq

/-- Modelled from the spec: the errors of the engine that the claims
mention — `UnsupportedConversion` from view construction and propagated
storage errors (the wave_stream library is not under src/). -/
inductive WavError
  | unsupportedConversion
  | ioFailure (e : IoError)
  deriving DecidableEq

/-- The in-memory sample types a reader view can be requested at
(`i8`, `i16`, `i32`-for-24-bit, `f32`; main.rs comments, lines 36-43). -/
inductive ReadType
  | i8
  | i16
  | i24
  | f32
  deriving DecidableEq

/-- Bit depth derived from the on-disk sample format (8/16/24/32). -/
def formatBits : SampleFormat → Nat
  | SampleFormat.int8 => 8
  | SampleFormat.int16 => 16
  | SampleFormat.int24 => 24
  | SampleFormat.float => 32

/-- Bit depth of a requested in-memory integer type (`f32` is 32). -/
def readTypeBits : ReadType → Nat
  | ReadType.i8 => 8
  | ReadType.i16 => 16
  | ReadType.i24 => 24
  | ReadType.f32 => 32

/-- Whether the requested in-memory type can losslessly represent every value
of the on-disk format, per the spec's widen-only rule: `f32` represents all
four on-disk formats; no integer type represents a Float file; an integer
type represents an integer file exactly when its bit depth is at least the
file's. -/
def losslesslyRepresents (requested : ReadType) (disk : SampleFormat) : Bool :=
  match requested, disk with
  | ReadType.f32, _ => true
  | _, SampleFormat.float => false
  | r, d => decide (formatBits d ≤ readTypeBits r)

/-- Modelled from the spec: the widen-only conversion check the engine's
view factories run at construction time (the wave_stream library is not
under src/).  Reading as `f32` is always permitted; an integer view of a
Float file is rejected; an integer view of an integer file is permitted
exactly when it does not narrow. -/
def canConvert (disk : SampleFormat) (requested : ReadType) : Bool :=
  match disk, requested with
  | _, ReadType.f32 => true
  | SampleFormat.float, _ => false
  | d, r => decide (formatBits d ≤ readTypeBits r)

/-- Modelled from the spec: a typed reader view request
(`get_random_access_*_reader` / `get_stream_*_reader`; the wave_stream
library is not under src/).  The decision is made from the header's sample
format alone: on success the returned view holds the untouched sample data
with its cursor at 0, on failure `UnsupportedConversion` is returned without
the data ever being inspected. -/
def get_typed_reader (kind : ViewKind) (disk : SampleFormat) (requested : ReadType)
    (data : List Nat) : Except WavError (List Nat × Nat) :=
  match kind with
  | _ =>
    if canConvert disk requested then Except.ok (data, 0)
    else Except.error WavError.unsupportedConversion

/-- Modelled from the spec: the view-exclusivity discipline of an open wav
handle (the wave_stream library is not under src/).  Obtaining a view
consumes the handle (`moved/transferred, not shared`), so a handle is
either fresh or already turned into a view. -/
inductive HandleSt
  | fresh
  | viewed (k : ViewKind)
  deriving DecidableEq

/-- Modelled from the spec: requesting a reader/writer view from a handle
(the wave_stream library is not under src/).  A fresh handle yields the view
and is consumed by it; a handle already consumed by a view yields nothing. -/
def acquire : HandleSt → ViewKind → Option HandleSt
  | HandleSt.fresh, k => some (HandleSt.viewed k)
  | HandleSt.viewed _, _ => none

/-- Modelled from the spec: one `next()` step of the streaming f32 reader
over a file holding `file.length` frames (the wave_stream library is not
under src/).  While the cursor is below the total frame count the step
yields `Ok` of that frame and advances the cursor by one; at the total frame
count it yields nothing — no element and no error. -/
def streamNext (file : List (SamplesByChannel Float)) (cursor : Nat) :
    Option (Except IoError (SamplesByChannel Float) × Nat) :=
  if h : cursor < file.length then
    some (Except.ok (file.get ⟨cursor, h⟩), cursor + 1)
  else none

/-- Modelled from the spec: the frames the streaming reader's iterator yields
from `cursor` onward, i.e. what the loudest-sample `for` loop of `main`
iterates over (the wave_stream library is not under src/). -/
def streamYield (file : List (SamplesByChannel Float)) (cursor : Nat) :
    List (SamplesByChannel Float) :=
  if h : cursor < file.length then
    file.get ⟨cursor, h⟩ :: streamYield file (cursor + 1)
  else []
termination_by file.length - cursor

/-- Modelled from the spec: `write_all_f32` (main.rs line 162 calls it; the
wave_stream library is not under src/).  It drains the producer sequence in
order, writing each `Ok` frame to storage via `writeFrame`; at the first
`Err` element of the sequence, or the first failing storage write, it stops
and propagates that error.  On success it returns the list of frames
written, in order. -/
def write_all_f32 (writeFrame : SamplesByChannel Float → Except IoError Unit) :
    List (Except IoError (SamplesByChannel Float)) →
    Except IoError (List (SamplesByChannel Float))
  | [] => Except.ok []
  | Except.error e :: _ => Except.error e
  | Except.ok x :: rest =>
    match writeFrame x with
    | Except.error e => Except.error e
    | Except.ok _ => (write_all_f32 writeFrame rest).map fun ws => x :: ws

/-- The four metadata accessors whose values `main` prints
(main.rs lines 16-20). -/
structure WavMetadata where
  num_channels : Nat
  bits_per_sample : Nat
  sample_rate : Nat
  len_samples : Nat

/-- The labels of the metadata print's four placeholders, in placeholder
order 0..3 (main.rs line 16). -/
def metadataPrintLabels : List String :=
  ["Number of channels", "samples per second", "bits per sample", "length in samples"]

/-- The arguments passed to the metadata print, in the order they are bound
to placeholders 0..3 (main.rs lines 17-20): `num_channels()`,
`bits_per_sample()`, `sample_rate()`, `len_samples()`. -/
def metadataPrintArgs (m : WavMetadata) : List Nat :=
  [m.num_channels, m.bits_per_sample, m.sample_rate, m.len_samples]

/-- The iterator state after one `SineIterator::next` call: `current_sample`
advanced by one and wrapped to `0` past `period`. -/
def sineStep (it : SineIterator) : SineIterator where
  period := it.period
  current_sample :=
    if it.current_sample + 1 > it.period then 0 else it.current_sample + 1

theorem sineNext_eq (it : SineIterator) :
    sineNext it = (some (Except.ok (sineFrame it)), sineStep it) := rfl

theorem sineTake_length : ∀ (n : Nat) (it : SineIterator), (sineTake it n).length = n := by
  intro n
  induction n with
  | zero => intro it; rfl
  | succ n ih =>
    intro it
    rw [sineTake, sineNext_eq]
    simp [ih]

theorem sineTake_all_ok :
    ∀ (n : Nat) (it : SineIterator) (r : Except IoError (SamplesByChannel Float)),
      r ∈ sineTake it n → ∃ x, r = Except.ok x := by
  intro n
  induction n with
  | zero => intro it r hr; simp [sineTake] at hr
  | succ n ih =>
    intro it r hr
    rw [sineTake, sineNext_eq] at hr
    rcases List.mem_cons.mp hr with h | h
    · exact ⟨sineFrame it, h⟩
    · exact ih _ r h

theorem streamYield_eq_drop (file : List (SamplesByChannel Float)) (cursor : Nat) :
    streamYield file cursor = file.drop cursor := by
  rw [streamYield]
  split
  · rename_i h
    rw [streamYield_eq_drop file (cursor + 1)]
    exact (List.drop_eq_getElem_cons h).symm
  · rename_i h
    rw [List.drop_eq_nil_of_le (Nat.not_lt.mp h)]
termination_by file.length - cursor

theorem write_all_f32_all_ok (writeFrame : SamplesByChannel Float → Except IoError Unit)
    (hw : ∀ x, writeFrame x = Except.ok ()) :
    ∀ seq : List (Except IoError (SamplesByChannel Float)),
      (∀ r ∈ seq, ∃ x, r = Except.ok x) →
      ∃ written, write_all_f32 writeFrame seq = Except.ok written ∧
        written.length = seq.length := by
  intro seq
  induction seq with
  | nil => intro _; exact ⟨[], rfl, rfl⟩
  | cons r rest ih =>
    intro hall
    obtain ⟨x, hx⟩ := hall r (List.mem_cons_self r rest)
    subst hx
    obtain ⟨ws, hws, hlen⟩ := ih fun s hs => hall s (List.mem_cons_of_mem _ hs)
    refine ⟨x :: ws, ?_, ?_⟩
    · simp [write_all_f32, hw x, hws, Except.map]
    · simp [hlen]

theorem write_all_f32_seq_error (writeFrame : SamplesByChannel Float → Except IoError Unit)
    (hw : ∀ x, writeFrame x = Except.ok ()) :
    ∀ (pre : List (Except IoError (SamplesByChannel Float))) (e : IoError)
      (post : List (Except IoError (SamplesByChannel Float))),
      (∀ r ∈ pre, ∃ x, r = Except.ok x) →
      write_all_f32 writeFrame (pre ++ Except.error e :: post) = Except.error e := by
  intro pre
  induction pre with
  | nil => intro e post _; rfl
  | cons r rest ih =>
    intro e post hall
    obtain ⟨x, hx⟩ := hall r (List.mem_cons_self r rest)
    subst hx
    have hrest := ih e post fun s hs => hall s (List.mem_cons_of_mem _ hs)
    simp [write_all_f32, hw x, hrest, Except.map]

theorem write_all_f32_write_error (writeFrame : SamplesByChannel Float → Except IoError Unit) :
    ∀ (pre : List (Except IoError (SamplesByChannel Float)))
      (x : SamplesByChannel Float)
      (post : List (Except IoError (SamplesByChannel Float))) (e : IoError),
      (∀ r ∈ pre, ∃ y, r = Except.ok y) →
      (∀ y, Except.ok y ∈ pre → writeFrame y = Except.ok ()) →
      writeFrame x = Except.error e →
      write_all_f32 writeFrame (pre ++ Except.ok x :: post) = Except.error e := by
  intro pre
  induction pre with
  | nil => intro x post e _ _ hx; simp [write_all_f32, hx]
  | cons r rest ih =>
    intro x post e hall hok hx
    obtain ⟨y, hy⟩ := hall r (List.mem_cons_self r rest)
    subst hy
    have hwy : writeFrame y = Except.ok () :=
      hok y (List.mem_cons_self _ rest)
    have hrest := ih x post e (fun s hs => hall s (List.mem_cons_of_mem _ hs))
      (fun z hz => hok z (List.mem_cons_of_mem _ hz)) hx
    simp [write_all_f32, hwy, hrest, Except.map]

theorem rampValue_congr (i j : Nat)
    (h : i % samples_in_ramp = j % samples_in_ramp) : rampValue i = rampValue j := by
  unfold rampValue
  rw [h]

theorem rampLoopFrom_length : ∀ (n i : Nat), (rampLoopFrom i n).length = n := by
  intro n
  induction n with
  | zero => intro i; rfl
  | succ n ih => intro i; simp [rampLoopFrom, ih]

theorem rampLoopFrom_filterMap :
    ∀ (n i : Nat), (rampLoopFrom i n).filterMap writeIndex = List.range' i n := by
  intro n
  induction n with
  | zero => intro i; rfl
  | succ n ih => intro i; simp [rampLoopFrom, writeIndex, List.range'_succ, ih]

theorem rampLoopFrom_get? :
    ∀ (n i k : Nat), k < n →
      (rampLoopFrom i n).get? k = some (RampEvent.write (i + k) (rampFrame (i + k))) := by
  intro n
  induction n with
  | zero => intro i k h; exact absurd h (Nat.not_lt_zero k)
  | succ n ih =>
    intro i k h
    cases k with
    | zero => simp [rampLoopFrom]
    | succ k =>
      have h2 : i + 1 + k = i + (k + 1) := by omega
      have := ih (i + 1) k (by omega)
      rw [h2] at this
      simpa [rampLoopFrom] using this

theorem rampLoopFrom_countP_flush : ∀ (n i : Nat), (rampLoopFrom i n).countP isFlush = 0 := by
  intro n
  induction n with
  | zero => intro i; rfl
  | succ n ih => intro i; simp [rampLoopFrom, List.countP_cons, isFlush, ih]

/-- C1: requesting an f32 reader view of an Int8, Int16 or Int24 file
succeeds; for every (on-disk format, requested type) pair where the
requested type cannot losslessly represent the on-disk format, the view
request fails with `UnsupportedConversion`; and a failing request is decided
without inspecting the sample data (the result does not depend on it). -/
theorem c1_f32_views_succeed_and_narrowing_is_rejected :
    (∀ (kind : ViewKind) (data : List Nat),
        get_typed_reader kind SampleFormat.int8 ReadType.f32 data = Except.ok (data, 0)
        ∧ get_typed_reader kind SampleFormat.int16 ReadType.f32 data = Except.ok (data, 0)
        ∧ get_typed_reader kind SampleFormat.int24 ReadType.f32 data = Except.ok (data, 0))
    ∧ (∀ (kind : ViewKind) (disk : SampleFormat) (req : ReadType) (data : List Nat),
        losslesslyRepresents req disk = false →
        get_typed_reader kind disk req data = Except.error WavError.unsupportedConversion)
    ∧ (∀ (kind : ViewKind) (disk : SampleFormat) (req : ReadType) (data data' : List Nat),
        losslesslyRepresents req disk = false →
        get_typed_reader kind disk req data = get_typed_reader kind disk req data') := by
  refine ⟨fun kind data => ⟨rfl, rfl, rfl⟩, ?_, ?_⟩
  · intro kind disk req data h
    cases disk <;> cases req <;> first | exact absurd h (by decide) | rfl
  · intro kind disk req data data' h
    cases disk <;> cases req <;> first | exact absurd h (by decide) | rfl

theorem c1_witness :
    losslesslyRepresents ReadType.i8 SampleFormat.float = false ∧
    get_typed_reader ViewKind.streaming SampleFormat.float ReadType.i8 [] =
      Except.error WavError.unsupportedConversion :=
  ⟨by decide,
   c1_f32_views_succeed_and_narrowing_is_rejected.2.1
     ViewKind.streaming SampleFormat.float ReadType.i8 [] (by decide)⟩

/-- C2: every frame the program constructs for writing — the ramp loop's
`write_samples` argument at every index, and the frame yielded by every
`SineIterator::next` call — has `Some` exactly at the channels whose flags
are set in the corresponding header (`front_left` here), and `None`
everywhere else. -/
theorem c2_written_frames_match_header_channel_flags :
    (∀ (sample : Nat) (ch : Channel),
        ((rampFrame sample).toFun ch).isSome = rampHeader.channels.toFun ch)
    ∧ (∀ it : SineIterator, (sineNext it).1 = some (Except.ok (sineFrame it)))
    ∧ (∀ (it : SineIterator) (ch : Channel),
        ((sineFrame it).toFun ch).isSome = sineHeader.channels.toFun ch) :=
  ⟨fun _ ch => by cases ch <;> rfl,
   fun _ => rfl,
   fun _ ch => by cases ch <;> rfl⟩

/-- C3: a handle hands out at most one reader/writer view: once a view has
been acquired from a handle, no further view (of either discipline) can be
acquired from it, so random-access and streaming views never coexist on one
handle; in particular, after the random-access view is taken, a streaming
view requires a second fresh handle — as `main` does with its second
`read_wav_from_file_path` call. -/
theorem c3_view_acquisition_consumes_the_handle :
    (∀ (st : HandleSt) (k : ViewKind) (st' : HandleSt),
        acquire st k = some st' → ∀ k', acquire st' k' = none)
    ∧ acquire HandleSt.fresh ViewKind.randomAccess =
        some (HandleSt.viewed ViewKind.randomAccess)
    ∧ acquire (HandleSt.viewed ViewKind.randomAccess) ViewKind.streaming = none
    ∧ acquire HandleSt.fresh ViewKind.streaming =
        some (HandleSt.viewed ViewKind.streaming) := by
  refine ⟨?_, rfl, rfl, rfl⟩
  intro st k st' h k'
  cases st with
  | fresh =>
    simp only [acquire, Option.some.injEq] at h
    subst h
    rfl
  | viewed k0 => simp [acquire] at h

theorem c3_witness :
    acquire HandleSt.fresh ViewKind.randomAccess =
      some (HandleSt.viewed ViewKind.randomAccess) ∧
    acquire (HandleSt.viewed ViewKind.randomAccess) ViewKind.streaming = none :=
  ⟨rfl,
   c3_view_acquisition_consumes_the_handle.1
     HandleSt.fresh ViewKind.randomAccess (HandleSt.viewed ViewKind.randomAccess)
     rfl ViewKind.streaming⟩

/-- C4: over a finite file the streaming f32 reader's iterator yields exactly
the file's frames, in order — hence exactly total-frame-count elements, each
frame visited once by the loudest-sample loop — and once the cursor reaches
the total frame count a step yields nothing: no element and no error. -/
theorem c4_stream_iterator_yields_each_frame_once_then_stops :
    (∀ file : List (SamplesByChannel Float), streamYield file 0 = file)
    ∧ (∀ (file : List (SamplesByChannel Float)) (cursor : Nat),
        file.length ≤ cursor → streamNext file cursor = none)
    ∧ (∀ (file : List (SamplesByChannel Float)) (cursor : Nat)
        (h : cursor < file.length),
        streamNext file cursor = some (Except.ok (file.get ⟨cursor, h⟩), cursor + 1)) := by
  refine ⟨?_, ?_, ?_⟩
  · intro file
    rw [streamYield_eq_drop]
    exact List.drop_zero file
  · intro file cursor h
    unfold streamNext
    rw [dif_neg (Nat.not_lt.mpr h)]
  · intro file cursor h
    unfold streamNext
    rw [dif_pos h]

theorem c4_witness :
    streamYield ([rampFrame 0] : List (SamplesByChannel Float)) 0 = [rampFrame 0] ∧
    streamNext ([rampFrame 0] : List (SamplesByChannel Float)) 1 = none :=
  ⟨c4_stream_iterator_yields_each_frame_once_then_stops.1 [rampFrame 0],
   c4_stream_iterator_yields_each_frame_once_then_stops.2.1 [rampFrame 0] 1
     (Nat.le_refl 1)⟩

/-- C5: `write_all_f32` drains the whole producer sequence when every element
and every storage write succeeds — in particular it writes all
`sample_rate * 3` frames of the truncated sine iterator — and it stops at
the first `Err` element of the sequence, or the first failing storage write,
propagating exactly that error. -/
theorem c5_write_all_drains_or_propagates_first_error :
    (∀ (writeFrame : SamplesByChannel Float → Except IoError Unit)
        (seq : List (Except IoError (SamplesByChannel Float))),
        (∀ r ∈ seq, ∃ x, r = Except.ok x) →
        (∀ x, writeFrame x = Except.ok ()) →
        ∃ written, write_all_f32 writeFrame seq = Except.ok written ∧
          written.length = seq.length)
    ∧ (∀ (writeFrame : SamplesByChannel Float → Except IoError Unit)
        (pre : List (Except IoError (SamplesByChannel Float))) (e : IoError)
        (post : List (Except IoError (SamplesByChannel Float))),
        (∀ r ∈ pre, ∃ x, r = Except.ok x) →
        (∀ x, writeFrame x = Except.ok ()) →
        write_all_f32 writeFrame (pre ++ Except.error e :: post) = Except.error e)
    ∧ (∀ (writeFrame : SamplesByChannel Float → Except IoError Unit)
        (pre : List (Except IoError (SamplesByChannel Float)))
        (x : SamplesByChannel Float)
        (post : List (Except IoError (SamplesByChannel Float))) (e : IoError),
        (∀ r ∈ pre, ∃ y, r = Except.ok y) →
        (∀ y, Except.ok y ∈ pre → writeFrame y = Except.ok ()) →
        writeFrame x = Except.error e →
        write_all_f32 writeFrame (pre ++ Except.ok x :: post) = Except.error e)
    ∧ (∀ writeFrame : SamplesByChannel Float → Except IoError Unit,
        (∀ x, writeFrame x = Except.ok ()) →
        ∃ written,
          write_all_f32 writeFrame (sineTake mainSineIterator (sample_rate * 3)) =
            Except.ok written ∧
          written.length = sample_rate * 3) := by
  refine ⟨?_, ?_, ?_, ?_⟩
  · intro writeFrame seq hall hw
    exact write_all_f32_all_ok writeFrame hw seq hall
  · intro writeFrame pre e post hall hw
    exact write_all_f32_seq_error writeFrame hw pre e post hall
  · intro writeFrame pre x post e hall hok hx
    exact write_all_f32_write_error writeFrame pre x post e hall hok hx
  · intro writeFrame hw
    obtain ⟨written, hwr, hlen⟩ :=
      write_all_f32_all_ok writeFrame hw (sineTake mainSineIterator (sample_rate * 3))
        (sineTake_all_ok (sample_rate * 3) mainSineIterator)
    exact ⟨written, hwr, by rw [hlen, sineTake_length]⟩

theorem c5_witness :
    ∃ written,
      write_all_f32 (fun _ => Except.ok ())
          ([Except.ok (rampFrame 0)] : List (Except IoError (SamplesByChannel Float))) =
        Except.ok written ∧
      written.length =
        ([Except.ok (rampFrame 0)] : List (Except IoError (SamplesByChannel Float))).length :=
  c5_write_all_drains_or_propagates_first_error.1 (fun _ => Except.ok ())
    ([Except.ok (rampFrame 0)] : List (Except IoError (SamplesByChannel Float)))
    (by
      intro r hr
      simp only [List.mem_singleton] at hr
      exact ⟨rampFrame 0, hr⟩)
    (fun _ => rfl)

/-- C6: `SamplesByChannel` and the header's `Channels` record range over
exactly the same fixed vocabulary of 18 named channel positions: each is in
bijection with functions on the 18-element `Channel` type — `Bool`-valued
for `Channels`, `Option T`-valued for `SamplesByChannel` — and the position
list has exactly 18 distinct members covering every position. -/
theorem c6_channels_and_samples_share_one_channel_vocabulary :
    (∀ f : Channel → Bool, (Channels.ofFun f).toFun = f)
    ∧ (∀ c : Channels, Channels.ofFun c.toFun = c)
    ∧ (∀ (T : Type) (g : Channel → Option T), (SamplesByChannel.ofFun g).toFun = g)
    ∧ (∀ (T : Type) (s : SamplesByChannel T), SamplesByChannel.ofFun s.toFun = s)
    ∧ allChannels.length = 18
    ∧ allChannels.Nodup
    ∧ (∀ ch : Channel, ch ∈ allChannels) := by
  refine ⟨?_, ?_, ?_, ?_, rfl, by decide, ?_⟩
  · intro f
    funext ch
    cases ch <;> rfl
  · intro c
    cases c
    rfl
  · intro T g
    funext ch
    cases ch <;> rfl
  · intro T s
    cases s
    rfl
  · intro ch
    cases ch <;> decide

/-- C7: both headers `main` passes to `write_wav_to_file_path` satisfy the
header invariant: at least one channel flag set — concretely `front_left`
set and the 17 other flags clear — with sample rate 96000, which is
positive. -/
theorem c7_written_headers_have_an_active_channel_and_positive_rate :
    ∀ h ∈ writeCalls.map Prod.snd,
      (∃ ch, h.channels.toFun ch = true)
      ∧ h.channels.front_left = true
      ∧ (∀ ch, ch ≠ Channel.front_left → h.channels.toFun ch = false)
      ∧ h.sample_rate = 96000
      ∧ 0 < h.sample_rate := by
  intro h hm
  simp only [writeCalls, List.map_cons, List.map_nil, List.mem_cons,
    List.not_mem_nil, or_false] at hm
  rcases hm with rfl | rfl <;>
    exact ⟨⟨Channel.front_left, rfl⟩, rfl,
      fun ch hch => by cases ch <;> first | exact absurd rfl hch | rfl,
      rfl, by decide⟩

theorem c7_witness :
    (∃ ch, rampHeader.channels.toFun ch = true)
    ∧ rampHeader.channels.front_left = true
    ∧ (∀ ch, ch ≠ Channel.front_left → rampHeader.channels.toFun ch = false)
    ∧ rampHeader.sample_rate = 96000
    ∧ 0 < rampHeader.sample_rate :=
  c7_written_headers_have_an_active_channel_and_positive_rate rampHeader
    (by simp [writeCalls])

/-- C8: the metadata print passes `num_channels()`, `bits_per_sample()`,
`sample_rate()`, `len_samples()` to placeholders 0..3 whose labels read
"Number of channels", "samples per second", "bits per sample", "length in
samples" — so the value printed under "samples per second" is
`bits_per_sample()` and the value printed under "bits per sample" is
`sample_rate()`: the second and third labels get swapped values. -/
theorem c8_metadata_print_pairs_swapped_values_with_labels :
    metadataPrintLabels.get? 0 = some "Number of channels"
    ∧ metadataPrintLabels.get? 1 = some "samples per second"
    ∧ metadataPrintLabels.get? 2 = some "bits per sample"
    ∧ metadataPrintLabels.get? 3 = some "length in samples"
    ∧ (∀ m : WavMetadata, (metadataPrintArgs m).get? 0 = some m.num_channels)
    ∧ (∀ m : WavMetadata, (metadataPrintArgs m).get? 1 = some m.bits_per_sample)
    ∧ (∀ m : WavMetadata, (metadataPrintArgs m).get? 2 = some m.sample_rate)
    ∧ (∀ m : WavMetadata, (metadataPrintArgs m).get? 3 = some m.len_samples) :=
  ⟨rfl, rfl, rfl, rfl, fun _ => rfl, fun _ => rfl, fun _ => rfl, fun _ => rfl⟩

/-- C9: `SineIterator::next` is total and never signals end or error: from
every state it returns `Some(Ok(frame))` — never `None`, never an `Err` —
so the iterator is infinite and `take n` always collects exactly `n`
elements; the sine write is bounded only by `take((sample_rate * 3) as usize)`. -/
theorem c9_sine_iterator_always_yields_some_ok :
    (∀ it : SineIterator,
        sineNext it = (some (Except.ok (sineFrame it)), sineStep it))
    ∧ (∀ (it : SineIterator) (n : Nat), (sineTake it n).length = n)
    ∧ (sineTake mainSineIterator (sample_rate * 3)).length = sample_rate * 3 :=
  ⟨fun _ => rfl,
   fun it n => sineTake_length n it,
   sineTake_length (sample_rate * 3) mainSineIterator⟩

/-- C10: the ramp loop's sample value depends only on the write index modulo
`samples_in_ramp` (2000): frames at congruent indices below
`sample_rate * 3` carry equal `front_left` values; and the loop's event
trace writes exactly the consecutive indices `0 .. sample_rate * 3 - 1` in
ascending order, with index `k`'s event writing `rampFrame k`, followed by
exactly one `flush()` as the final event. -/
theorem c10_ramp_values_periodic_and_indices_consecutive :
    (∀ i j : Nat, i < sample_rate * 3 → j < sample_rate * 3 →
        i % samples_in_ramp = j % samples_in_ramp →
        (rampFrame i).front_left = (rampFrame j).front_left)
    ∧ rampWriteIndices = List.range (sample_rate * 3)
    ∧ (∀ k : Nat, k < sample_rate * 3 →
        rampEvents.get? k = some (RampEvent.write k (rampFrame k)))
    ∧ rampEvents.countP isFlush = 1
    ∧ rampEvents.getLast? = some RampEvent.flush := by
  refine ⟨?_, ?_, ?_, ?_, ?_⟩
  · intro i j _ _ h
    exact congrArg (fun v => some v) (rampValue_congr i j h)
  · rw [rampWriteIndices, rampEvents, List.filterMap_append,
      rampLoopFrom_filterMap, List.range_eq_range']
    simp [writeIndex]
  · intro k hk
    rw [rampEvents, List.get?_append (by rw [rampLoopFrom_length]; exact hk)]
    have := rampLoopFrom_get? (sample_rate * 3) 0 k hk
    rwa [Nat.zero_add] at this
  · rw [rampEvents, List.countP_append, rampLoopFrom_countP_flush]
    rfl
  · rw [rampEvents]
    exact List.getLast?_concat _

theorem c10_witness :
    1 % samples_in_ramp = 2001 % samples_in_ramp ∧
    (rampFrame 1).front_left = (rampFrame 2001).front_left :=
  ⟨by decide,
   c10_ramp_values_periodic_and_indices_consecutive.1 1 2001
     (by decide) (by decide) (by decide)⟩

end WaveStreamExample
